import Mathlib

/-!
Verification development for the AI-Employee-Retention-Predictor core pipeline.

Shallow embedding of:
* `src/backend/services/feature_extractor.py` (`FeatureExtractor`)
* `src/backend/services/ml_predictor.py` (`MLPredictor`)
* `src/backend/services/ai_engagement_scorer.py` (`AIEngagementScorer`)

Python floats are modelled as rationals (`ℚ`); Python dicts with optional
keys are modelled as structures with `Option` fields; `d.get(k, default)`
becomes `(·.bind f).getD default`.  `round(x, 2)` is modelled as rounding
`x * 100` to the nearest integer (ties never arise in the facts proved
here).  Python's `sorted` (a stable merge sort) is modelled by
`List.mergeSort`.
-/

set_option maxRecDepth 4000

/-! ## Raw per-employee metrics record

Mirrors the dict shape consumed by `FeatureExtractor.extract_features`,
`MLPredictor._rule_based_prediction` and `AIEngagementScorer._prepare_metrics`.
Every sub-section and every field inside it is optional, as in the source,
where all reads go through `dict.get` with a default. -/

structure BasicInfo where
  tenure_days : Option ℚ := none
  department : Option String := none
  position : Option String := none
deriving DecidableEq

structure SlackMetrics where
  message_count : Option ℚ := none
  avg_response_time : Option ℚ := none
  active_channels : Option ℚ := none
  sentiment_score : Option ℚ := none
  after_hours_messages : Option ℚ := none
  participation_trend : Option String := none
deriving DecidableEq

structure EmailMetrics where
  sent_count : Option ℚ := none
  received_count : Option ℚ := none
  avg_response_time : Option ℚ := none
  unread_percentage : Option ℚ := none
  after_hours_emails : Option ℚ := none
  email_sentiment : Option ℚ := none
  external_communication : Option ℚ := none
deriving DecidableEq

structure CalendarMetrics where
  -- keys read by the feature extractor / rule-based predictor
  meeting_hours : Option ℚ := none
  meetings_declined : Option ℚ := none
  one_on_ones : Option ℚ := none
  recurring_meetings_dropped : Option ℚ := none
  meeting_participation : Option ℚ := none
  calendar_fragmentation : Option ℚ := none
  pto_days : Option ℚ := none
  -- keys read by the engagement scorer
  total_meeting_hours : Option ℚ := none
  one_on_one_count : Option ℚ := none
  declined_percentage : Option ℚ := none
  focus_time_hours : Option ℚ := none
  collaboration_hours : Option ℚ := none
  after_hours_meetings : Option ℚ := none
  meeting_load_score : Option ℚ := none
  weekend_hours : Option ℚ := none
deriving DecidableEq

structure ProductivityMetrics where
  -- keys read by the feature extractor / rule-based predictor
  task_completion_rate : Option ℚ := none
  project_involvement : Option ℚ := none
  code_commits : Option ℚ := none
  ticket_resolution_time : Option ℚ := none
  performance_trend : Option String := none
  skill_utilization : Option ℚ := none
  workload_balance : Option ℚ := none
  -- keys read by the engagement scorer
  tasks_completed : Option ℚ := none
  active_projects : Option ℚ := none
  on_time_percentage : Option ℚ := none
  velocity_score : Option ℚ := none
deriving DecidableEq

structure EmployeeData where
  employee_id : Option String := none
  basic_info : Option BasicInfo := none
  slack_metrics : Option SlackMetrics := none
  email_metrics : Option EmailMetrics := none
  calendar_metrics : Option CalendarMetrics := none
  productivity_metrics : Option ProductivityMetrics := none
deriving DecidableEq

/-- The record with no sub-section present at all. -/
def EmployeeData.empty : EmployeeData := {}

/-- A sub-section that is present but holds no keys (the empty dict). -/
def SlackMetrics.emptyDict : SlackMetrics := {}

def EmailMetrics.emptyDict : EmailMetrics := {}

def CalendarMetrics.emptyDict : CalendarMetrics := {}

def ProductivityMetrics.emptyDict : ProductivityMetrics := {}

def BasicInfo.emptyDict : BasicInfo := {}

/-- `employee_data.get(section, {}).get(key, 0)`. -/
def getQ {σ : Type} (sec : Option σ) (f : σ → Option ℚ) : ℚ :=
  (sec.bind f).getD 0

/-- `employee_data.get(section, {}).get(key)` for string-valued keys. -/
def getS {σ : Type} (sec : Option σ) (f : σ → Option String) : Option String :=
  sec.bind f

namespace FeatureExtractor

/-- `FeatureExtractor._encode_department`: fixed anchor values, unknown → 0.5. -/
def encode_department (department : String) : ℚ :=
  (([("engineering", (1:ℚ)/10), ("product", 2/10), ("sales", 3/10),
     ("marketing", 4/10), ("hr", 5/10), ("finance", 6/10),
     ("operations", 7/10), ("support", 8/10)]).lookup department.toLower).getD (5/10)

/-- `FeatureExtractor._encode_position_level`: substring rules on the lowered
position string. -/
def encode_position_level (position : String) : ℚ :=
  if position.toLower.containsSubstr "senior" ∨ position.toLower.containsSubstr "lead" then
    8/10
  else if position.toLower.containsSubstr "manager" ∨ position.toLower.containsSubstr "director" then
    9/10
  else if position.toLower.containsSubstr "junior" ∨ position.toLower.containsSubstr "entry" then
    3/10
  else
    5/10

/-- `FeatureExtractor._encode_trend`: declining → -1, stable → 0, improving → 1,
unknown → 0. -/
def encode_trend (trend : String) : ℚ :=
  (([("declining", (-1:ℚ)), ("stable", 0), ("improving", 1)]).lookup trend.toLower).getD 0

/-- `FeatureExtractor._calculate_derived_features`: the four engineered
features, in source order. -/
def calculate_derived_features (d : EmployeeData) : List ℚ :=
  let slack_activity := getQ d.slack_metrics SlackMetrics.message_count
  let email_activity := getQ d.email_metrics EmailMetrics.sent_count
  let comm_balance := |slack_activity - email_activity| / max (slack_activity + email_activity) 1
  let meeting_participation := getQ d.calendar_metrics CalendarMetrics.meeting_participation
  let slack_sentiment := getQ d.slack_metrics SlackMetrics.sentiment_score
  let engagement := (meeting_participation + slack_sentiment) / 2
  let after_hours_slack := getQ d.slack_metrics SlackMetrics.after_hours_messages
  let after_hours_email := getQ d.email_metrics EmailMetrics.after_hours_emails
  let meeting_hours := getQ d.calendar_metrics CalendarMetrics.meeting_hours
  let burnout_risk := (after_hours_slack + after_hours_email) / 200 + min (meeting_hours / 40) 1
  let active_channels := getQ d.slack_metrics SlackMetrics.active_channels
  let one_on_ones := getQ d.calendar_metrics CalendarMetrics.one_on_ones
  let isolation := 1 - (min (active_channels / 10) 1 + min (one_on_ones / 5) 1) / 2
  [comm_balance, engagement, burnout_risk, isolation]

/-- `FeatureExtractor.extract_features`: the fixed-order 34-entry feature
vector (3 basic + 6 slack + 7 email + 7 calendar + 7 productivity + 4 derived). -/
def extract_features (d : EmployeeData) : List ℚ :=
  let basic := d.basic_info
  let slack := d.slack_metrics
  let email := d.email_metrics
  let calendar := d.calendar_metrics
  let productivity := d.productivity_metrics
  [getQ basic BasicInfo.tenure_days / 365,
   encode_department ((getS basic BasicInfo.department).getD ""),
   encode_position_level ((getS basic BasicInfo.position).getD "")] ++
  [getQ slack SlackMetrics.message_count / 100,
   getQ slack SlackMetrics.avg_response_time / 60,
   getQ slack SlackMetrics.active_channels / 10,
   getQ slack SlackMetrics.sentiment_score,
   getQ slack SlackMetrics.after_hours_messages / 100,
   encode_trend ((getS slack SlackMetrics.participation_trend).getD "stable")] ++
  [getQ email EmailMetrics.sent_count / 100,
   getQ email EmailMetrics.received_count / 100,
   getQ email EmailMetrics.avg_response_time / 24,
   getQ email EmailMetrics.unread_percentage / 100,
   getQ email EmailMetrics.after_hours_emails / 100,
   getQ email EmailMetrics.email_sentiment,
   getQ email EmailMetrics.external_communication / 100] ++
  [getQ calendar CalendarMetrics.meeting_hours / 40,
   getQ calendar CalendarMetrics.meetings_declined / 100,
   getQ calendar CalendarMetrics.one_on_ones / 10,
   getQ calendar CalendarMetrics.recurring_meetings_dropped,
   getQ calendar CalendarMetrics.meeting_participation,
   getQ calendar CalendarMetrics.calendar_fragmentation,
   getQ calendar CalendarMetrics.pto_days / 20] ++
  [getQ productivity ProductivityMetrics.task_completion_rate,
   getQ productivity ProductivityMetrics.project_involvement / 5,
   getQ productivity ProductivityMetrics.code_commits / 50,
   getQ productivity ProductivityMetrics.ticket_resolution_time / 48,
   encode_trend ((getS productivity ProductivityMetrics.performance_trend).getD "stable"),
   getQ productivity ProductivityMetrics.skill_utilization,
   getQ productivity ProductivityMetrics.workload_balance] ++
  calculate_derived_features d

end FeatureExtractor

namespace MLPredictor

/-- `MLPredictor._categorize_risk`. -/
def categorize_risk (probability : ℚ) : String :=
  if probability ≥ 75/100 then "critical"
  else if probability ≥ 50/100 then "high"
  else if probability ≥ 25/100 then "medium"
  else "low"

/-- `MLPredictor._estimate_departure_window`. -/
def estimate_departure_window (probability : ℚ) : String :=
  if probability ≥ 8/10 then "0-30 days"
  else if probability ≥ 6/10 then "30-60 days"
  else if probability ≥ 4/10 then "60-90 days"
  else "Low immediate risk"

/-- One suggested intervention record. -/
structure Intervention where
  action : String
  description : String
  priority : String
  timeline : String
  owner : String
deriving DecidableEq

/-- The sort key used by `_generate_interventions`:
`{'critical': 0, 'high': 1, 'medium': 2, 'low': 3}[priority]`
(all priorities produced by the code are in the mapping). -/
def priorityRank (priority : String) : ℕ :=
  (([("critical", 0), ("high", 1), ("medium", 2), ("low", 3)]).lookup priority).getD 4

/-- `'key' in risk_factors` on the risk-factor dict, modelled as an
association list in insertion order. -/
def containsKey (rf : List (String × String)) (key : String) : Bool :=
  (rf.lookup key).isSome

/-- The flag-specific interventions accumulated by
`_generate_interventions` before the generic injection and the sort,
in source order. -/
def interventionsFor (rf : List (String × String)) : List Intervention :=
  (if containsKey rf "declining_communication" then
      [⟨"Schedule 1:1 Check-in",
        "Have a direct conversation about engagement and any concerns",
        "high", "within 3 days", "Direct Manager"⟩] else []) ++
    (if containsKey rf "burnout_risk" then
      [⟨"Workload Review",
        "Review current workload and consider redistribution or support",
        "high", "within 1 week", "Manager + HR"⟩,
       ⟨"Promote Work-Life Balance",
        "Encourage time off and establish after-hours boundaries",
        "medium", "immediate", "Manager"⟩] else []) ++
    (if containsKey rf "negative_sentiment" then
      [⟨"Employee Wellness Check",
        "HR to conduct confidential wellness conversation",
        "high", "within 3 days", "HR Partner"⟩] else []) ++
    (if containsKey rf "performance_decline" then
      [⟨"Performance Support Plan",
        "Identify skill gaps and provide training/mentoring",
        "medium", "within 2 weeks", "Manager"⟩] else []) ++
    (if containsKey rf "meeting_avoidance" then
      [⟨"Meeting Optimization",
        "Review meeting necessity and employee involvement",
        "low", "within 2 weeks", "Manager"⟩] else [])

/-- `MLPredictor._generate_interventions`: flag-specific interventions in
source order, a generic retention discussion when probability > 0.7 produced
nothing, then a stable sort by priority rank. -/
def generate_interventions (rf : List (String × String)) (probability : ℚ) :
    List Intervention :=
  let interventions := interventionsFor rf
  let interventions :=
    if probability > 7/10 ∧ interventions = [] then
      interventions ++
      [⟨"Retention Discussion",
        "Discuss career goals, compensation, and growth opportunities",
        "critical", "immediately", "Manager + HR"⟩]
    else interventions
  interventions.mergeSort (fun a b => decide (priorityRank a.priority ≤ priorityRank b.priority))

/-- `MLPredictor._calculate_confidence`: data completeness (fraction of
non-zero feature entries) mapped into [0.5, 0.95]. -/
def calculate_confidence (features : List ℚ) : ℚ :=
  let data_completeness : ℚ := ((features.filter (· ≠ 0)).length : ℚ) / (features.length : ℚ)
  let confidence := 5/10 + data_completeness * (45/100)
  min confidence (95/100)

/-- The decorated prediction result: the second component of the pair
returned by `predict` / `_rule_based_prediction`. -/
structure RiskReport where
  confidence : ℚ
  risk_level : String
  risk_factors : List (String × String)
  departure_window : String
  suggested_interventions : List Intervention
deriving DecidableEq

/-- `MLPredictor._rule_based_prediction`: additive threshold scoring over the
raw metrics, clamped at 0.95, with fixed confidence 0.65. Risk factors are
listed in the dict-insertion order of the source. -/
def rule_based_prediction (d : EmployeeData) : ℚ × RiskReport :=
  let slack := d.slack_metrics
  let declining := getS slack SlackMetrics.participation_trend = some "declining"
  let sentiment := getQ slack SlackMetrics.sentiment_score
  let after_hours := getQ slack SlackMetrics.after_hours_messages
  let calendar := d.calendar_metrics
  let declinedMany := getQ calendar CalendarMetrics.meetings_declined > 30
  let productivity := d.productivity_metrics
  let perfDeclining := getS productivity ProductivityMetrics.performance_trend = some "declining"
  let risk_score : ℚ :=
    (if declining then 3/10 else 0) +
    (if sentiment < -2/10 then 2/10 else 0) +
    (if after_hours > 30 then 2/10 else 0) +
    (if declinedMany then 15/100 else 0) +
    (if perfDeclining then 15/100 else 0)
  let risk_factors : List (String × String) :=
    (if declining then [("declining_communication", "high")] else []) ++
    (if sentiment < -2/10 then [("negative_sentiment", "high")] else []) ++
    (if after_hours > 30 then [("burnout_risk", "high")] else []) ++
    (if declinedMany then [("disengagement", "medium")] else []) ++
    (if perfDeclining then [("performance_decline", "medium")] else [])
  let risk_score := min risk_score (95/100)
  (risk_score,
   { confidence := 65/100,
     risk_level := categorize_risk risk_score,
     risk_factors := risk_factors,
     departure_window := estimate_departure_window risk_score,
     suggested_interventions := generate_interventions risk_factors risk_score })

/-- `MLPredictor._identify_risk_factors` (model path), in dict-insertion
order of the source. -/
def identify_risk_factors (d : EmployeeData) : List (String × String) :=
  let slack := d.slack_metrics
  let declining := getS slack SlackMetrics.participation_trend = some "declining"
  (if declining then [("declining_communication", "high")]
   else if getQ slack SlackMetrics.message_count < 10 then [("low_engagement", "medium")]
   else []) ++
  (if getQ slack SlackMetrics.sentiment_score < -1/10 then [("negative_sentiment", "high")] else []) ++
  (if getQ slack SlackMetrics.after_hours_messages > 25 then [("burnout_risk", "high")] else []) ++
  (if getQ d.calendar_metrics CalendarMetrics.meetings_declined > 20 then
    [("meeting_avoidance", "medium")] else []) ++
  (if getS d.productivity_metrics ProductivityMetrics.performance_trend = some "declining" then
    [("performance_decline", "high")] else []) ++
  (if getQ d.productivity_metrics ProductivityMetrics.workload_balance < 3/10 then
    [("workload_imbalance", "high")] else [])

/-- `MLPredictor.predict`: the `self.model is None` branch falls back to the
rule-based prediction; the model branch is abstracted by the scaled
classifier probability `m` on the extracted features. -/
def predict (model : Option (List ℚ → ℚ)) (d : EmployeeData) : ℚ × RiskReport :=
  let features := FeatureExtractor.extract_features d
  match model with
  | none => rule_based_prediction d
  | some m =>
    let probability := m features
    let risk_factors := identify_risk_factors d
    (probability,
     { confidence := calculate_confidence features,
       risk_level := categorize_risk probability,
       risk_factors := risk_factors,
       departure_window := estimate_departure_window probability,
       suggested_interventions := generate_interventions risk_factors probability })

end MLPredictor

namespace AIEngagementScorer

/-- `round(x, 2)` on the idealized real value: round to the nearest
hundredth (ties, which Python resolves bankers-style on binary floats,
never arise in the facts proved here). -/
def round2 (q : ℚ) : ℚ := ((round (q * 100) : ℤ) : ℚ) / 100

/-- The `'communication'` metric dict built by `_prepare_metrics`: it may
hold the Slack-derived keys, the email-derived keys, both, or (when the
whole dict is empty) be absent. -/
structure CommMetrics where
  message_frequency : Option ℚ := none
  response_time : Option ℚ := none
  sentiment : Option ℚ := none
  after_hours_percentage : Option ℚ := none
  channels_active : Option ℚ := none
  email_sent : Option ℚ := none
  email_received : Option ℚ := none
  email_response_time : Option ℚ := none
  unread_percentage : Option ℚ := none
deriving DecidableEq

/-- The `'collaboration'` metric dict: when present, `_prepare_metrics` sets
every key. -/
structure CollabMetrics where
  meeting_hours : ℚ := 0
  one_on_ones : ℚ := 0
  declined_meetings : ℚ := 0
  focus_time : ℚ := 0
  collaboration_hours : ℚ := 0
deriving DecidableEq

/-- The `'wellbeing'` metric dict: when present, `_prepare_metrics` sets
every key. -/
structure WellbeingMetrics where
  pto_taken : ℚ := 0
  after_hours_meetings : ℚ := 0
  meeting_load : ℚ := 0
  weekend_work : ℚ := 0
deriving DecidableEq

/-- The `'productivity'` metric dict: when present, `_prepare_metrics` sets
every key. -/
structure ProdMetrics where
  tasks_completed : ℚ := 0
  projects_active : ℚ := 0
  deadline_adherence : ℚ := 0
  velocity : ℚ := 0
deriving DecidableEq

/-- The four metric groups built by `_prepare_metrics`. A `none` group is
the empty (falsy) dict. -/
structure Metrics where
  communication : Option CommMetrics := none
  collaboration : Option CollabMetrics := none
  wellbeing : Option WellbeingMetrics := none
  productivity : Option ProdMetrics := none
deriving DecidableEq

def Metrics.empty : Metrics := {}

/-- The slack-derived part of the communication dict. -/
def commOfSlack (s : SlackMetrics) : CommMetrics :=
  { message_frequency := some ((s.message_count.getD 0) / 30),
    response_time := some (s.avg_response_time.getD 0),
    sentiment := some (s.sentiment_score.getD 0),
    after_hours_percentage := some (s.after_hours_messages.getD 0),
    channels_active := some (s.active_channels.getD 0) }

/-- `dict.update` with the email-derived keys. -/
def commAddEmail (c : CommMetrics) (e : EmailMetrics) : CommMetrics :=
  { c with
    email_sent := some (e.sent_count.getD 0),
    email_received := some (e.received_count.getD 0),
    email_response_time := some (e.avg_response_time.getD 0),
    unread_percentage := some (e.unread_percentage.getD 0) }

/-- `AIEngagementScorer._prepare_metrics`. -/
def prepare_metrics (d : EmployeeData) : Metrics :=
  { communication :=
      match d.slack_metrics, d.email_metrics with
      | none, none => none
      | some s, none => some (commOfSlack s)
      | none, some e => some (commAddEmail {} e)
      | some s, some e => some (commAddEmail (commOfSlack s) e),
    collaboration := d.calendar_metrics.map (fun c =>
      { meeting_hours := c.total_meeting_hours.getD 0,
        one_on_ones := c.one_on_one_count.getD 0,
        declined_meetings := c.declined_percentage.getD 0,
        focus_time := c.focus_time_hours.getD 0,
        collaboration_hours := c.collaboration_hours.getD 0 }),
    wellbeing := d.calendar_metrics.map (fun c =>
      { pto_taken := c.pto_days.getD 0,
        after_hours_meetings := c.after_hours_meetings.getD 0,
        meeting_load := c.meeting_load_score.getD 0,
        weekend_work := c.weekend_hours.getD 0 }),
    productivity := d.productivity_metrics.map (fun p =>
      { tasks_completed := p.tasks_completed.getD 0,
        projects_active := p.active_projects.getD 0,
        deadline_adherence := p.on_time_percentage.getD 0,
        velocity := p.velocity_score.getD 0 }) }

/-- The dict returned by `_get_fallback_analysis` (and, in the remote path,
by the AI provider). Absent keys are `none`. -/
structure Analysis where
  engagement_score : Option ℚ := none
  risk_indicators : List String := []
  recommendations : List String := []
  confidence_level : Option ℚ := none
  key_factors : List String := []
deriving DecidableEq

/-- `AIEngagementScorer._get_fallback_analysis`: additive per-group scoring,
0.5 default when no group contributed, indicator/recommendation lists in
source append order, confidence 0.7 (the `metrics` dict returned by
`_prepare_metrics` always carries its four keys, so `0.7 if metrics else
0.3` is always 0.7). -/
def fallback_analysis (m : Metrics) : Analysis :=
  let s0 : ℚ := 0
  let ri0 : List String := []
  let rec0 : List String := []
  let kf0 : List String := []
  -- communication group
  let msg_freq := (m.communication.bind CommMetrics.message_frequency).getD 0
  let sentiment := (m.communication.bind CommMetrics.sentiment).getD 0
  let s1 := s0 + (if m.communication.isSome then
      (min (msg_freq / 20) 1 * (5/10) + (sentiment + 1) / 2 * (5/10)) * (25/100) else 0)
  let ri1 := ri0 ++ (if m.communication.isSome ∧ msg_freq < 5 then
      ["Low communication frequency"] else [])
  let rec1 := rec0 ++ (if m.communication.isSome ∧ msg_freq < 5 then
      ["Encourage more team interaction"] else [])
  let kf1 := kf0 ++ (if m.communication.isSome ∧ sentiment < -3/10 then
      ["Poor sentiment in communications"] else [])
  let ri1 := ri1 ++ (if m.communication.isSome ∧ sentiment < -3/10 then
      ["Negative communication sentiment"] else [])
  -- collaboration group
  let meeting_hours := (m.collaboration.map CollabMetrics.meeting_hours).getD 0
  let one_on_ones := (m.collaboration.map CollabMetrics.one_on_ones).getD 0
  let s2 := s1 + (if m.collaboration.isSome then
      (min (meeting_hours / 20) 1 * (7/10) + min (one_on_ones / 4) 1 * (3/10)) * (25/100) else 0)
  let ri2 := ri1 ++ (if m.collaboration.isSome ∧ one_on_ones < 2 then
      ["Insufficient 1-on-1 meetings"] else [])
  let rec2 := rec1 ++ (if m.collaboration.isSome ∧ one_on_ones < 2 then
      ["Schedule regular check-ins with manager"] else [])
  let ri2 := ri2 ++ (if m.collaboration.isSome ∧ meeting_hours > 30 then
      ["Meeting overload"] else [])
  let kf2 := kf1 ++ (if m.collaboration.isSome ∧ meeting_hours > 30 then
      ["Excessive meeting time"] else [])
  -- wellbeing group
  let after_hours := (m.wellbeing.map WellbeingMetrics.after_hours_meetings).getD 0
  let pto_taken := (m.wellbeing.map WellbeingMetrics.pto_taken).getD 0
  let s3 := s2 + (if m.wellbeing.isSome then
      (max 0 (1 - after_hours / 10) * (5/10) + min (pto_taken / 15) 1 * (5/10)) * (25/100) else 0)
  let ri3 := ri2 ++ (if m.wellbeing.isSome ∧ after_hours > 5 then
      ["High after-hours work"] else [])
  let kf3 := kf2 ++ (if m.wellbeing.isSome ∧ after_hours > 5 then
      ["Work-life balance concerns"] else [])
  let rec3 := rec2 ++ (if m.wellbeing.isSome ∧ pto_taken < 5 then
      ["Encourage taking time off"] else [])
  -- productivity group
  let tasks := (m.productivity.map ProdMetrics.tasks_completed).getD 0
  let deadline_adherence := (m.productivity.map ProdMetrics.deadline_adherence).getD 0
  let s4 := s3 + (if m.productivity.isSome then
      (min (tasks / 50) 1 * (4/10) + deadline_adherence * (6/10)) * (25/100) else 0)
  let ri4 := ri3 ++ (if m.productivity.isSome ∧ deadline_adherence < 7/10 then
      ["Missing deadlines frequently"] else [])
  let rec4 := rec3 ++ (if m.productivity.isSome ∧ deadline_adherence < 7/10 then
      ["Review workload and priorities"] else [])
  let score := if s4 = 0 then 5/10 else s4
  let rec5 := if s4 = 0 then
      rec4 ++ ["Insufficient data - enable integrations for better insights"] else rec4
  { engagement_score := some (round2 score),
    risk_indicators := ri4.take 5,
    recommendations := rec5.take 5,
    confidence_level := some (7/10),
    key_factors := kf3.take 3 }

/-- `AIEngagementScorer._score_communication`. -/
def score_communication : Option CommMetrics → ℚ
  | none => 5/10
  | some m =>
    let msg_freq := m.message_frequency.getD 0
    let freqScore : ℚ :=
      if msg_freq < 5 then msg_freq / 5 * (5/10)
      else if msg_freq ≤ 30 then 5/10 + (msg_freq - 5) / 25 * (5/10)
      else max (3/10) (1 - (msg_freq - 30) / 30)
    let sentiment := m.sentiment.getD 0
    let response_time := m.response_time.getD 60
    (freqScore + (sentiment + 1) / 2 + max 0 (1 - response_time / 120)) / 3

/-- `AIEngagementScorer._score_collaboration`. -/
def score_collaboration : Option CollabMetrics → ℚ
  | none => 5/10
  | some m =>
    let hoursScore : ℚ :=
      if m.meeting_hours < 5 then m.meeting_hours / 5 * (5/10)
      else if m.meeting_hours ≤ 20 then 5/10 + (m.meeting_hours - 5) / 15 * (5/10)
      else max (3/10) (1 - (m.meeting_hours - 20) / 20)
    (hoursScore + min 1 (m.one_on_ones / 3) + min 1 (m.focus_time / 15)) / 3

/-- `AIEngagementScorer._score_productivity`. -/
def score_productivity : Option ProdMetrics → ℚ
  | none => 5/10
  | some m =>
    let projectScore : ℚ :=
      if m.projects_active < 1 then 3/10
      else if m.projects_active ≤ 5 then 7/10 + m.projects_active * (6/100)
      else max (4/10) (1 - (m.projects_active - 5) / 5)
    (min 1 (m.tasks_completed / 30) + m.deadline_adherence + projectScore) / 3

/-- `AIEngagementScorer._score_wellbeing`. -/
def score_wellbeing : Option WellbeingMetrics → ℚ
  | none => 5/10
  | some m =>
    (min 1 (m.pto_taken / 15) + max 0 (1 - m.after_hours_meetings / 10) +
      (1 - m.meeting_load) + max 0 (1 - m.weekend_work / 5)) / 4

/-- The dict returned by `_calculate_component_scores`. -/
structure Scores where
  communication_score : ℚ
  collaboration_score : ℚ
  productivity_score : ℚ
  wellbeing_score : ℚ
  overall_score : ℚ
deriving DecidableEq

/-- `AIEngagementScorer._calculate_component_scores`. -/
def calculate_component_scores (m : Metrics) (analysis : Analysis) : Scores :=
  let base_score := analysis.engagement_score.getD (5/10)
  let comm_score := score_communication m.communication
  let collab_score := score_collaboration m.collaboration
  let prod_score := score_productivity m.productivity
  let well_score := score_wellbeing m.wellbeing
  let overall :=
    (comm_score * (25/100) + collab_score * (25/100) +
     prod_score * (25/100) + well_score * (25/100)) * (7/10) + base_score * (3/10)
  { communication_score := round2 comm_score,
    collaboration_score := round2 collab_score,
    productivity_score := round2 prod_score,
    wellbeing_score := round2 well_score,
    overall_score := round2 overall }

/-- `AIEngagementScorer._determine_engagement_level` (as its `.value`). -/
def determine_engagement_level (score : ℚ) : String :=
  if score ≥ 8/10 then "highly_engaged"
  else if score ≥ 65/100 then "engaged"
  else if score ≥ 5/10 then "neutral"
  else if score ≥ 35/100 then "at_risk"
  else "disengaged"

/-- The `seen`-set deduplication loop of `_generate_recommendations`
(keeps the first occurrence). -/
def dedupKeepFirst (seen : List String) : List String → List String
  | [] => []
  | r :: rest =>
    if r ∈ seen then dedupKeepFirst seen rest
    else r :: dedupKeepFirst (r :: seen) rest

/-- `AIEngagementScorer._generate_recommendations`. -/
def generate_recommendations (scores : Scores) (analysis : Analysis) : List String :=
  let recommendations := analysis.recommendations ++
    (if scores.communication_score < 5/10 then
      ["Increase team communication and collaboration"] else []) ++
    (if scores.wellbeing_score < 5/10 then
      ["Review work-life balance and meeting load"] else []) ++
    (if scores.productivity_score < 5/10 then
      ["Assess workload distribution and priorities"] else []) ++
    (if scores.collaboration_score < 5/10 then
      ["Schedule regular 1-on-1s and team activities"] else [])
  (dedupKeepFirst [] recommendations).take 5

/-- The engagement assessment dict returned by `calculate_engagement_score`
(timestamp omitted). -/
structure EngagementResult where
  employee_id : Option String
  engagement_score : ℚ
  engagement_level : String
  communication : ℚ
  collaboration : ℚ
  productivity : ℚ
  wellbeing : ℚ
  confidence : ℚ
  risk_indicators : List String
  recommendations : List String
  key_factors : List String
deriving DecidableEq

/-- `AIEngagementScorer.calculate_engagement_score` with no AI API key
configured: metrics preparation, rule-based fallback analysis, component
scoring, level determination and recommendation generation. -/
def calculate_engagement_score (d : EmployeeData) : EngagementResult :=
  let metrics := prepare_metrics d
  let ai_analysis := fallback_analysis metrics
  let scores := calculate_component_scores metrics ai_analysis
  let engagement_level := determine_engagement_level scores.overall_score
  { employee_id := d.employee_id,
    engagement_score := scores.overall_score,
    engagement_level := engagement_level,
    communication := scores.communication_score,
    collaboration := scores.collaboration_score,
    productivity := scores.productivity_score,
    wellbeing := scores.wellbeing_score,
    confidence := ai_analysis.confidence_level.getD (7/10),
    risk_indicators := ai_analysis.risk_indicators,
    recommendations := generate_recommendations scores ai_analysis,
    key_factors := ai_analysis.key_factors }

end AIEngagementScorer

/-! ## Claims -/

open MLPredictor AIEngagementScorer FeatureExtractor

/-- C1: risk categorization returns `critical` for `p ≥ 0.75`, `high` for
`0.5 ≤ p < 0.75`, `medium` for `0.25 ≤ p < 0.5`, `low` for `p < 0.25`, and
the boundaries are exact: `0.75 ↦ critical`, `0.749999 ↦ high`,
`0.5 ↦ high`, `0.25 ↦ medium`, `0.249999 ↦ low`. -/
theorem categorize_risk_thresholds :
    (∀ p : ℚ,
      (p ≥ 75/100 → categorize_risk p = "critical") ∧
      (50/100 ≤ p ∧ p < 75/100 → categorize_risk p = "high") ∧
      (25/100 ≤ p ∧ p < 50/100 → categorize_risk p = "medium") ∧
      (p < 25/100 → categorize_risk p = "low")) ∧
    categorize_risk (75/100) = "critical" ∧
    categorize_risk (749999/1000000) = "high" ∧
    categorize_risk (50/100) = "high" ∧
    categorize_risk (25/100) = "medium" ∧
    categorize_risk (249999/1000000) = "low" := by
  refine ⟨fun p => ⟨fun h => ?_, fun h => ?_, fun h => ?_, fun h => ?_⟩, ?_, ?_, ?_, ?_, ?_⟩
  · unfold categorize_risk; rw [if_pos h]
  · obtain ⟨ha, hb⟩ := h
    unfold categorize_risk
    rw [if_neg (by linarith), if_pos (by linarith)]
  · obtain ⟨ha, hb⟩ := h
    unfold categorize_risk
    rw [if_neg (by linarith), if_neg (by linarith), if_pos (by linarith)]
  · unfold categorize_risk
    rw [if_neg (by linarith), if_neg (by linarith), if_neg (by linarith)]
  all_goals norm_num [MLPredictor.categorize_risk]

/-- Witness for C1 at `p = 0.6`. -/
theorem categorize_risk_thresholds_witness : categorize_risk (6/10) = "high" :=
  (categorize_risk_thresholds.1 (6/10)).2.1 (by norm_num)

/-- C4: departure-window estimation returns `0-30 days` for `s ≥ 0.8`,
`30-60 days` for `0.6 ≤ s < 0.8`, `60-90 days` for `0.4 ≤ s < 0.6`,
`Low immediate risk` for `s < 0.4`, with exact boundaries. -/
theorem departure_window_thresholds :
    (∀ s : ℚ,
      (s ≥ 8/10 → estimate_departure_window s = "0-30 days") ∧
      (6/10 ≤ s ∧ s < 8/10 → estimate_departure_window s = "30-60 days") ∧
      (4/10 ≤ s ∧ s < 6/10 → estimate_departure_window s = "60-90 days") ∧
      (s < 4/10 → estimate_departure_window s = "Low immediate risk")) ∧
    estimate_departure_window (8/10) = "0-30 days" ∧
    estimate_departure_window (79999/100000) = "30-60 days" ∧
    estimate_departure_window (6/10) = "30-60 days" ∧
    estimate_departure_window (4/10) = "60-90 days" ∧
    estimate_departure_window (39999/100000) = "Low immediate risk" := by
  refine ⟨fun s => ⟨fun h => ?_, fun h => ?_, fun h => ?_, fun h => ?_⟩, ?_, ?_, ?_, ?_, ?_⟩
  · unfold estimate_departure_window; rw [if_pos h]
  · obtain ⟨ha, hb⟩ := h
    unfold estimate_departure_window
    rw [if_neg (by linarith), if_pos (by linarith)]
  · obtain ⟨ha, hb⟩ := h
    unfold estimate_departure_window
    rw [if_neg (by linarith), if_neg (by linarith), if_pos (by linarith)]
  · unfold estimate_departure_window
    rw [if_neg (by linarith), if_neg (by linarith), if_neg (by linarith)]
  all_goals norm_num [MLPredictor.estimate_departure_window]

/-- Witness for C4 at `s = 0.5`. -/
theorem departure_window_thresholds_witness :
    estimate_departure_window (5/10) = "60-90 days" :=
  (departure_window_thresholds.1 (5/10)).2.2.1 (by norm_num)

/-- C10: the two shared decorations are mutually consistent: a `0-30 days`
window forces risk level `critical`, and a `Low immediate risk` window
forces risk level `low` or `medium`. -/
theorem window_risk_level_consistent (s : ℚ) (h0 : 0 ≤ s) (h1 : s ≤ 1) :
    (estimate_departure_window s = "0-30 days" → categorize_risk s = "critical") ∧
    (estimate_departure_window s = "Low immediate risk" →
      categorize_risk s = "low" ∨ categorize_risk s = "medium") := by
  constructor
  · intro hw
    unfold estimate_departure_window at hw
    split_ifs at hw with ha hb hc
    · unfold categorize_risk
      rw [if_pos (show (75:ℚ)/100 ≤ s by linarith)]
    · exact absurd hw (by decide)
    · exact absurd hw (by decide)
    · exact absurd hw (by decide)
  · intro hw
    unfold estimate_departure_window at hw
    split_ifs at hw with ha hb hc
    · exact absurd hw (by decide)
    · exact absurd hw (by decide)
    · exact absurd hw (by decide)
    · unfold categorize_risk
      rw [if_neg (by intro hx; exact ha (by linarith)),
          if_neg (by intro hx; exact hb (by linarith))]
      split_ifs with hd
      · exact Or.inr rfl
      · exact Or.inl rfl

/-- The C2 scenario record: messaging has `participation_trend =
"declining"`, `sentiment_score = -0.3`, `after_hours_messages = 35`, and
everything else is absent. -/
def c2Input : EmployeeData :=
  { slack_metrics := some
      { participation_trend := some "declining",
        sentiment_score := some (-3/10),
        after_hours_messages := some 35 } }

/-- C2: on the declining/negative/after-hours scenario the rule-based
fallback returns risk score 0.7, risk level `high`, departure window
`30-60 days`, and exactly the three flags `declining_communication`,
`negative_sentiment`, `burnout_risk` (all `high`); moreover every fallback
risk score is clamped to at most 0.95. -/
theorem rule_based_scenario :
    (rule_based_prediction c2Input).1 = 7/10 ∧
    (rule_based_prediction c2Input).2.risk_level = "high" ∧
    (rule_based_prediction c2Input).2.departure_window = "30-60 days" ∧
    (rule_based_prediction c2Input).2.risk_factors =
      [("declining_communication", "high"), ("negative_sentiment", "high"),
       ("burnout_risk", "high")] ∧
    ∀ d : EmployeeData, (rule_based_prediction d).1 ≤ 95/100 := by
  refine ⟨?_, ?_, ?_, ?_, fun d => ?_⟩
  · simp [MLPredictor.rule_based_prediction, c2Input, getQ, getS]
    norm_num [min_def]
  · simp [MLPredictor.rule_based_prediction, c2Input, getQ, getS]
    norm_num [min_def, MLPredictor.categorize_risk]
  · simp [MLPredictor.rule_based_prediction, c2Input, getQ, getS]
    norm_num [min_def, MLPredictor.estimate_departure_window]
  · simp [MLPredictor.rule_based_prediction, c2Input, getQ, getS]
    norm_num
  · simp only [MLPredictor.rule_based_prediction]
    exact min_le_right _ _

/-- C3: with no model loaded and every sub-section absent or empty, the
prediction is total and returns confidence exactly 0.65 with risk level
`low` or `medium`. -/
theorem predict_all_defaults (d : EmployeeData)
    (hb : d.basic_info = none ∨ d.basic_info = some BasicInfo.emptyDict)
    (hs : d.slack_metrics = none ∨ d.slack_metrics = some SlackMetrics.emptyDict)
    (he : d.email_metrics = none ∨ d.email_metrics = some EmailMetrics.emptyDict)
    (hc : d.calendar_metrics = none ∨ d.calendar_metrics = some CalendarMetrics.emptyDict)
    (hp : d.productivity_metrics = none ∨
      d.productivity_metrics = some ProductivityMetrics.emptyDict) :
    (MLPredictor.predict none d).2.confidence = 65/100 ∧
    ((MLPredictor.predict none d).2.risk_level = "low" ∨
     (MLPredictor.predict none d).2.risk_level = "medium") := by
  have hlevel : (MLPredictor.predict none d).2.risk_level = "low" := by
    rcases hs with hs | hs <;> rcases hc with hc | hc <;> rcases hp with hp | hp <;>
      · simp [MLPredictor.predict, MLPredictor.rule_based_prediction, getQ, getS,
          hs, hc, hp, SlackMetrics.emptyDict, CalendarMetrics.emptyDict,
          ProductivityMetrics.emptyDict]
        norm_num [min_def, MLPredictor.categorize_risk]
  exact ⟨rfl, Or.inl hlevel⟩

/-- Witness for C3 at the record with no sub-section present. -/
theorem predict_all_defaults_witness :
    (MLPredictor.predict none EmployeeData.empty).2.confidence = 65/100 ∧
    ((MLPredictor.predict none EmployeeData.empty).2.risk_level = "low" ∨
     (MLPredictor.predict none EmployeeData.empty).2.risk_level = "medium") :=
  predict_all_defaults EmployeeData.empty (Or.inl rfl) (Or.inl rfl) (Or.inl rfl)
    (Or.inl rfl) (Or.inl rfl)

/-- C5: the model-path confidence is `min (0.5 + 0.45·(nonzero fraction))
0.95`, always lies in `[0.5, 0.95]`, and equals 0.95 exactly for a fully
non-zero feature vector. -/
theorem calculate_confidence_spec (v : List ℚ) (hv : 0 < v.length) :
    calculate_confidence v =
      min (5/10 + 45/100 * (((v.filter (· ≠ 0)).length : ℚ) / (v.length : ℚ))) (95/100) ∧
    5/10 ≤ calculate_confidence v ∧
    calculate_confidence v ≤ 95/100 ∧
    (calculate_confidence v = 95/100 ↔ (v.filter (· ≠ 0)).length = v.length) := by
  have hn : (0:ℚ) < (v.length : ℚ) := by exact_mod_cast hv
  have hkn : (v.filter (· ≠ 0)).length ≤ v.length := List.length_filter_le _ _
  have hdc0 : 0 ≤ ((v.filter (· ≠ 0)).length : ℚ) / (v.length : ℚ) := by positivity
  have hdc1 : ((v.filter (· ≠ 0)).length : ℚ) / (v.length : ℚ) ≤ 1 := by
    rw [div_le_one hn]
    exact_mod_cast hkn
  refine ⟨?_, ?_, ?_, ?_⟩
  · simp only [MLPredictor.calculate_confidence]
    rw [mul_comm]
  · simp only [MLPredictor.calculate_confidence]
    exact le_min (by nlinarith) (by norm_num)
  · simp only [MLPredictor.calculate_confidence]
    exact min_le_right _ _
  · simp only [MLPredictor.calculate_confidence]
    rw [min_eq_right_iff]
    constructor
    · intro h
      have h1 : (1:ℚ) ≤ ((v.filter (· ≠ 0)).length : ℚ) / (v.length : ℚ) := by nlinarith
      have h2 : ((v.filter (· ≠ 0)).length : ℚ) / (v.length : ℚ) = 1 := le_antisymm hdc1 h1
      rw [div_eq_one_iff_eq hn.ne'] at h2
      exact_mod_cast h2
    · intro h
      have h2 : ((v.filter (· ≠ 0)).length : ℚ) / (v.length : ℚ) = 1 := by
        rw [div_eq_one_iff_eq hn.ne']
        exact_mod_cast h
      rw [h2]
      norm_num

/-- Witness for C5 at the fully non-zero vector `[1]`. -/
theorem calculate_confidence_spec_witness :
    5/10 ≤ calculate_confidence [(1:ℚ)] ∧ calculate_confidence [(1:ℚ)] ≤ 95/100 :=
  ⟨(calculate_confidence_spec [(1:ℚ)] (by norm_num)).2.1,
   (calculate_confidence_spec [(1:ℚ)] (by norm_num)).2.2.1⟩

/-- Merge sort returns the empty list only on the empty list. -/
theorem mergeSort_eq_nil_iff {α : Type} (l : List α) (le : α → α → Bool) :
    l.mergeSort le = [] ↔ l = [] := by
  constructor
  · intro h
    have h2 := congrArg List.length h
    simp at h2
    exact h2
  · intro h
    subst h
    simp

/-- The sort used by `_generate_interventions` yields a list that is
pairwise ordered by priority rank. -/
theorem pairwise_rank_mergeSort (l : List Intervention) :
    (l.mergeSort
      (fun a b => decide (priorityRank a.priority ≤ priorityRank b.priority))).Pairwise
      (fun a b => priorityRank a.priority ≤ priorityRank b.priority) := by
  have hs := @List.sorted_mergeSort MLPredictor.Intervention
    (fun a b => decide (MLPredictor.priorityRank a.priority ≤ MLPredictor.priorityRank b.priority))
    (fun a b c hab hbc =>
      decide_eq_true (le_trans (of_decide_eq_true hab) (of_decide_eq_true hbc)))
    (fun a b => by
      simp only [Bool.or_eq_true, decide_eq_true_eq]
      exact Nat.le_total _ _)
    l
  exact hs.imp (fun h => of_decide_eq_true h)

/-- C6: for any risk-factor mapping, the intervention list is non-empty
whenever the probability exceeds 0.7 (a generic retention discussion is
injected when no flag produced one), and the returned list is always
sorted by priority rank (critical = 0 first, then high, medium, low). -/
theorem generate_interventions_spec (rf : List (String × String)) (p : ℚ) :
    (p > 7/10 → generate_interventions rf p ≠ []) ∧
    (generate_interventions rf p).Pairwise
      (fun a b => priorityRank a.priority ≤ priorityRank b.priority) := by
  constructor
  · intro hp h
    simp only [MLPredictor.generate_interventions] at h
    rw [mergeSort_eq_nil_iff] at h
    by_cases hb : interventionsFor rf = []
    · rw [if_pos ⟨hp, hb⟩] at h
      simp at h
    · rw [if_neg (fun hx => hb hx.2)] at h
      exact hb h
  · simp only [MLPredictor.generate_interventions]
    exact pairwise_rank_mergeSort _

/-- Witness for C6 with no flags and `p = 0.8`. -/
theorem generate_interventions_spec_witness :
    generate_interventions [] (8/10) ≠ [] :=
  (generate_interventions_spec [] (8/10)).1 (by norm_num)

/-- C7: feature extraction is total, yields exactly 34 entries, and its last
four entries are the derived features: communication balance, engagement,
burnout risk, and isolation, by the formulas of the claim. -/
theorem extract_features_spec (d : EmployeeData) :
    (extract_features d).length = 34 ∧
    (extract_features d).drop 30 =
      [|getQ d.slack_metrics SlackMetrics.message_count -
          getQ d.email_metrics EmailMetrics.sent_count| /
          max (getQ d.slack_metrics SlackMetrics.message_count +
            getQ d.email_metrics EmailMetrics.sent_count) 1,
        (getQ d.calendar_metrics CalendarMetrics.meeting_participation +
          getQ d.slack_metrics SlackMetrics.sentiment_score) / 2,
        (getQ d.slack_metrics SlackMetrics.after_hours_messages +
          getQ d.email_metrics EmailMetrics.after_hours_emails) / 200 +
          min (getQ d.calendar_metrics CalendarMetrics.meeting_hours / 40) 1,
        1 - (min (getQ d.slack_metrics SlackMetrics.active_channels / 10) 1 +
          min (getQ d.calendar_metrics CalendarMetrics.one_on_ones / 5) 1) / 2] := by
  constructor <;>
    simp [FeatureExtractor.extract_features, FeatureExtractor.calculate_derived_features]

/-- C8 counterexample: on the record with no sub-section present the
engagement scorer goes through the rule-based fallback, not the
default-score path, so the returned confidence is 0.7 — not 0.1 — and the
risk-indicator list is empty (carries no "insufficient data" marker). -/
theorem engagement_empty_record_counterexample :
    (calculate_engagement_score EmployeeData.empty).confidence = 7/10 ∧
    (7:ℚ)/10 ≠ 1/10 ∧
    (calculate_engagement_score EmployeeData.empty).risk_indicators = [] := by
  refine ⟨?_, by norm_num, ?_⟩ <;>
    simp [AIEngagementScorer.calculate_engagement_score, AIEngagementScorer.prepare_metrics,
      AIEngagementScorer.fallback_analysis, EmployeeData.empty]

/-- C8 (amended): on every record with no sub-section present the
engagement scorer returns score 0.5, level `neutral`, confidence 0.7, an
empty risk-indicator list, and an "Insufficient data" marker in the
recommendations. -/
theorem engagement_empty_record (d : EmployeeData)
    (hb : d.basic_info = none) (hs : d.slack_metrics = none)
    (he : d.email_metrics = none) (hc : d.calendar_metrics = none)
    (hp : d.productivity_metrics = none) :
    (calculate_engagement_score d).engagement_score = 1/2 ∧
    (calculate_engagement_score d).engagement_level = "neutral" ∧
    (calculate_engagement_score d).confidence = 7/10 ∧
    (calculate_engagement_score d).risk_indicators = [] ∧
    (calculate_engagement_score d).recommendations =
      ["Insufficient data - enable integrations for better insights"] := by
  refine ⟨?_, ?_, ?_, ?_, ?_⟩ <;>
    simp [AIEngagementScorer.calculate_engagement_score, AIEngagementScorer.prepare_metrics,
      AIEngagementScorer.fallback_analysis, AIEngagementScorer.calculate_component_scores,
      AIEngagementScorer.score_communication, AIEngagementScorer.score_collaboration,
      AIEngagementScorer.score_productivity, AIEngagementScorer.score_wellbeing,
      AIEngagementScorer.determine_engagement_level,
      AIEngagementScorer.generate_recommendations, AIEngagementScorer.dedupKeepFirst,
      AIEngagementScorer.round2, hs, he, hc, hp] <;>
    norm_num [round_eq] <;>
    simp [AIEngagementScorer.dedupKeepFirst]

/-- Witness for C8 (amended) at the record with no sub-section present. -/
theorem engagement_empty_record_witness :
    (calculate_engagement_score EmployeeData.empty).engagement_score = 1/2 ∧
    (calculate_engagement_score EmployeeData.empty).engagement_level = "neutral" :=
  ⟨(engagement_empty_record EmployeeData.empty rfl rfl rfl rfl rfl).1,
   (engagement_empty_record EmployeeData.empty rfl rfl rfl rfl rfl).2.1⟩

/-- C9 counterexample: with all four metric groups empty (component scores
0.5 each) and base score 0.01, the returned overall score is 0.35 — the
two-decimal rounding of the blend — while the exact blend
`0.7·mean + 0.3·base` is 0.353, so the claimed exact equality fails. -/
theorem overall_score_counterexample :
    (calculate_component_scores Metrics.empty
      { engagement_score := some (1/100) }).overall_score = 7/20 ∧
    7/10 * ((score_communication Metrics.empty.communication +
      score_collaboration Metrics.empty.collaboration +
      score_productivity Metrics.empty.productivity +
      score_wellbeing Metrics.empty.wellbeing) / 4) + 3/10 * (1/100) = 353/1000 ∧
    (7:ℚ)/20 ≠ 353/1000 := by
  refine ⟨?_, ?_, by norm_num⟩ <;>
    · simp [AIEngagementScorer.calculate_component_scores, AIEngagementScorer.round2,
        AIEngagementScorer.score_communication, AIEngagementScorer.score_collaboration,
        AIEngagementScorer.score_productivity, AIEngagementScorer.score_wellbeing,
        AIEngagementScorer.Metrics.empty]
      norm_num [round_eq]

/-- C9 (amended): the overall engagement score equals the equal-weight blend
`0.7·mean(components) + 0.3·base` rounded to two decimals, and the
engagement level thresholds on the overall score are
`≥0.8 highly_engaged; ≥0.65 engaged; ≥0.5 neutral; ≥0.35 at_risk; else
disengaged`. -/
theorem overall_score_blend :
    (∀ (m : Metrics) (a : Analysis),
      (calculate_component_scores m a).overall_score =
        round2 (7/10 * ((score_communication m.communication +
          score_collaboration m.collaboration +
          score_productivity m.productivity +
          score_wellbeing m.wellbeing) / 4) +
          3/10 * a.engagement_score.getD (5/10))) ∧
    (∀ s : ℚ,
      (s ≥ 8/10 → determine_engagement_level s = "highly_engaged") ∧
      (65/100 ≤ s ∧ s < 8/10 → determine_engagement_level s = "engaged") ∧
      (1/2 ≤ s ∧ s < 65/100 → determine_engagement_level s = "neutral") ∧
      (35/100 ≤ s ∧ s < 1/2 → determine_engagement_level s = "at_risk") ∧
      (s < 35/100 → determine_engagement_level s = "disengaged")) := by
  constructor
  · intro m a
    simp only [AIEngagementScorer.calculate_component_scores]
    congr 1
    ring
  · intro s
    refine ⟨fun h => ?_, fun h => ?_, fun h => ?_, fun h => ?_, fun h => ?_⟩
    · unfold determine_engagement_level
      rw [if_pos h]
    · obtain ⟨ha, hb⟩ := h
      unfold determine_engagement_level
      rw [if_neg (by linarith), if_pos (by linarith)]
    · obtain ⟨ha, hb⟩ := h
      unfold determine_engagement_level
      rw [if_neg (by linarith), if_neg (by linarith), if_pos (by linarith)]
    · obtain ⟨ha, hb⟩ := h
      unfold determine_engagement_level
      rw [if_neg (by linarith), if_neg (by linarith), if_neg (by linarith),
        if_pos (by linarith)]
    · unfold determine_engagement_level
      rw [if_neg (by linarith), if_neg (by linarith), if_neg (by linarith),
        if_neg (by linarith)]

/-- Witness for C9 (amended) at `s = 0.9`. -/
theorem overall_score_blend_witness :
    determine_engagement_level (9/10) = "highly_engaged" :=
  (overall_score_blend.2 (9/10)).1 (by norm_num)

/-- Witness for C10 at `s = 0.9`. -/
theorem window_risk_level_consistent_witness : categorize_risk (9/10) = "critical" :=
  (window_risk_level_consistent (9/10) (by norm_num) (by norm_num)).1
    (by norm_num [MLPredictor.estimate_departure_window])
